import Mathlib

/-!
Shallow embedding of the multicall / provider-management layer of the
`evm-agent-kit` repository (TypeScript, built on ethers v6).

Source files embedded here:
  * `src/utils/MulticallService.ts` — the batch aggregator
    (`MULTICALL2_ADDRESSES`, `getMulticallAddress`, `getErc20BatchBalances`,
    `batchCalls`);
  * `src/providers/ProviderManager.ts` — provider/signer registry
    (`getProvider`, `addProvider`);
  * `src/utils/validation.ts` — `isValidPrivateKey`, `isValidRpcUrl`.

Modelling conventions:
  * machine integers are `Nat` (chain ids are non-negative integers; uint256
    words are the `Nat` value of 32 bytes);
  * thrown JS exceptions become `Except String` with the thrown `Error`
    message as the payload;
  * the asynchronous network round-trip performed by an `ethers.Contract`
    method call is a function parameter (`rpcAggregate` / `rpcTryAggregate`)
    mapping the calls array to the contract response, so that theorems can
    quantify over every possible on-chain/transport outcome;
  * a JavaScript `Map` is an insertion-ordered association list whose `set`
    overwrites in place; string keys compare by exact (case-sensitive)
    string equality, as JS `SameValueZero` does;
  * a `JsonRpcProvider` is identified by its RPC URL and a `Wallet` by its
    private-key string — the claims only need identity, not behaviour.
-/

deriving instance DecidableEq for Except

/-- A 20-byte account identifier, kept as the raw string the caller passed
(the TypeScript code never normalises it). -/
abbrev Address := String

/-- A byte string, one `Nat` per byte. -/
abbrev Bytes := List Nat

/-- One encoded read request sent to the batching contract:
`{ target: Address, callData: Bytes }` (MulticallService.ts lines 77-80,
114). -/
structure CallDescriptor where
  target : Address
  callData : Bytes
  deriving Repr, DecidableEq

/-- The aggregator's per-call outcome in best-effort mode:
`{ success: boolean, returnData: Bytes }` (MulticallService.ts lines
130-133). -/
structure CallResult where
  success : Bool
  returnData : Bytes
  deriving Repr, DecidableEq

/-- JavaScript `Map.prototype.set`: if the key is already present the value
is replaced in place (insertion order kept), otherwise the pair is appended.
Keys compare by `SameValueZero`, i.e. exact equality — for strings this is
case-sensitive. -/
def mapSet {α β : Type} [DecidableEq α] : List (α × β) → α → β → List (α × β)
  | [], k, v => [(k, v)]
  | (k', v') :: t, k, v =>
      if k' = k then (k, v) :: t else (k', v') :: mapSet t k v

/-- JavaScript `Map.prototype.get`: first (and, for maps built with
`mapSet`, only) binding of the key, or `none`. -/
def mapGet {α β : Type} [DecidableEq α] : List (α × β) → α → Option β
  | [], _ => none
  | (k', v') :: t, k => if k' = k then some v' else mapGet t k

/-- `MULTICALL2_ADDRESSES` (MulticallService.ts lines 12-19): the fixed
chain-id → Multicall2-contract-address table. -/
def MULTICALL2_ADDRESSES (chainId : Nat) : Option String :=
  if chainId = 1 then some "0x5BA1e12693Dc8F9c48aAD8770482f4739bEeD696"
  else if chainId = 137 then some "0x275617327c958bD06b5D6b871E7f491D76113dd8"
  else if chainId = 56 then some "0xa9193376D09C7f31283C54e56D013fCF370Cd9D9"
  else if chainId = 8453 then some "0xcA11bde05977b3631167028862bE2a173976CA11"
  else if chainId = 10 then some "0xcA11bde05977b3631167028862bE2a173976CA11"
  else if chainId = 42161 then some "0xcA11bde05977b3631167028862bE2a173976CA11"
  else none

/-- `MulticallService.getMulticallAddress` (lines 45-51): table lookup,
throwing `Multicall2 address not found for chain ID ${chainId}` on a miss
(the stored addresses are non-empty strings, so JS truthiness coincides
with presence in the table). -/
def getMulticallAddress (chainId : Nat) : Except String String :=
  match MULTICALL2_ADDRESSES chainId with
  | some address => .ok address
  | none => .error ("Multicall2 address not found for chain ID " ++ toString chainId)

/-- Models `erc20Interface.encodeFunctionData("balanceOf", [ownerAddress])`
(MulticallService.ts line 79): the 4-byte selector of `balanceOf(address)`
followed by the encoded argument word. The ABI word encoding of the owner
address is abstracted to an injective function of the owner string; no
claim inspects these bytes. -/
def encodeBalanceOf (ownerAddress : Address) : Bytes :=
  [0x70, 0xa0, 0x82, 0x31] ++ ownerAddress.toList.map Char.toNat

/-- Models `ethers.AbiCoder.defaultAbiCoder().decode(["uint256"], data)[0]`
(MulticallService.ts lines 89-92): reads one 32-byte big-endian word;
shorter input throws a buffer-overrun error. -/
def decodeUint256 (b : Bytes) : Except String Nat :=
  if 32 ≤ b.length then
    .ok ((b.take 32).foldl (fun acc x => acc * 256 + x) 0)
  else
    .error "data out-of-bounds"

/-- `Erc20BatchBalanceParams` (src/interfaces/erc20.ts). -/
structure Erc20BatchBalanceParams where
  ownerAddress : Address
  tokenAddresses : List Address

/-- The calls array built by `getErc20BatchBalances` (MulticallService.ts
lines 77-80): one `balanceOf(ownerAddress)` descriptor per token address,
in input order, with no validation or filtering of the targets. -/
def buildBalanceCalls (ownerAddress : Address) (tokenAddresses : List Address) :
    List CallDescriptor :=
  tokenAddresses.map fun tokenAddress =>
    { target := tokenAddress, callData := encodeBalanceOf ownerAddress }

/-- The result-processing loop of `getErc20BatchBalances` (lines 87-94):
`for (i = 0; i < tokenAddresses.length; i++) balances.set(tokenAddresses[i],
decode(returnData[i]))`. Walking both lists in step is the indexed loop:
when `returnData` runs out first, `returnData[i]` is `undefined` and the
abi decoder throws (`invalid BytesLike value`); entries of `returnData`
beyond `tokenAddresses.length` are never read. -/
def balancesLoop : List Address → List Bytes → List (String × String) →
    Except String (List (String × String))
  | [], _, balances => .ok balances
  | _ :: _, [], _ => .error "invalid BytesLike value"
  | tokenAddress :: tokens, b :: bs, balances =>
      match decodeUint256 b with
      | .ok balance => balancesLoop tokens bs (mapSet balances tokenAddress (toString balance))
      | .error e => .error e

/-- `ProviderManager` state (ProviderManager.ts lines 8-11): the per-chain
provider map (a provider is identified by its RPC URL), the per-chain
signer map (a wallet is identified by its private key), and the default
chain id fixed at construction. -/
structure ProviderManager where
  providers : List (Nat × String)
  signers : List (Nat × String)
  defaultChainId : Nat

/-- `ProviderManager.getProvider(chainId?)` (lines 51-60):
`const id = chainId || this.defaultChainId` — an omitted argument *and*
the falsy chain id `0` both resolve to the default — then a map lookup,
throwing `Provider not found for chain ID ${id}` on a miss. -/
def ProviderManager.getProvider (pm : ProviderManager) (chainId : Option Nat) :
    Except String String :=
  let id := match chainId with
    | none => pm.defaultChainId
    | some c => if c = 0 then pm.defaultChainId else c
  match mapGet pm.providers id with
  | some provider => .ok provider
  | none => .error ("Provider not found for chain ID " ++ toString id)

/-- Hex digit predicate (both cases), as accepted by ethers hex parsing. -/
def isHexDigit (c : Char) : Bool :=
  c.isDigit || ('a' ≤ c && c ≤ 'f') || ('A' ≤ c && c ≤ 'F')

/-- Value of one hex digit. -/
def hexDigitVal (c : Char) : Nat :=
  if c.isDigit then c.toNat - '0'.toNat
  else if 'a' ≤ c && c ≤ 'f' then c.toNat - 'a'.toNat + 10
  else if 'A' ≤ c && c ≤ 'F' then c.toNat - 'A'.toNat + 10
  else 0

/-- Big-endian value of a sequence of hex digits. -/
def hexToNat (cs : List Char) : Nat :=
  cs.foldl (fun acc c => acc * 16 + hexDigitVal c) 0

/-- Order of the secp256k1 group: private keys must lie in `[1, n-1]`. -/
def SECP256K1_N : Nat :=
  0xFFFFFFFFFFFFFFFFFFFFFFFFFFFFFFFEBAAEDCE6AF48A03BBFD25E8CD0364141

/-- `ValidationUtils.isValidPrivateKey` (validation.ts lines 13-25): prepend
`0x` when missing, then succeed exactly when `new ethers.Wallet(key)`
accepts the key — a 32-byte hex string whose value is a valid secp256k1
scalar (non-zero and below the group order). -/
def isValidPrivateKey (privateKey : String) : Bool :=
  let cs := privateKey.toList
  let k := match cs with
    | '0' :: 'x' :: _ => cs
    | _ => '0' :: 'x' :: cs
  let body := k.drop 2
  body.length = 64 && body.all isHexDigit &&
    (0 < hexToNat body && hexToNat body < SECP256K1_N)

/-- Characters allowed in a URL scheme after the leading letter. -/
def isSchemeChar (c : Char) : Bool :=
  c.isAlphanum || c = '+' || c = '-' || c = '.'

/-- `ValidationUtils.isValidRpcUrl` (validation.ts lines 84-92): succeeds
exactly when `new URL(url)` does not throw. Modelled shallowly as the
WHATWG requirement that the string opens with a scheme — a letter followed
by letters, digits, `+`, `-` or `.` — and a colon. -/
def isValidRpcUrl (url : String) : Bool :=
  let cs := url.toList
  let scheme := cs.takeWhile (fun c => c ≠ ':')
  scheme.length < cs.length &&
    (match scheme with
     | [] => false
     | c :: rest => c.isAlpha && rest.all isSchemeChar)

/-- `ProviderManager.addProvider(rpcUrl, chainId, privateKey?)` (lines
86-102). JS mutates `this` and may then throw, so the model returns the
post-call state paired with the thrown message (`none` = returned
normally): the URL check comes first; the provider entry is stored
*before* the private key is validated; the `if (privateKey)` guard is
JS truthiness, so both an omitted key and the falsy empty-string key
skip the whole key block and return normally; a truthy invalid key
throws `Invalid private key` after the provider store; a valid key also
stores the wallet in the signer map. -/
def ProviderManager.addProvider (pm : ProviderManager) (rpcUrl : String)
    (chainId : Nat) (privateKey : Option String) :
    ProviderManager × Option String :=
  if !isValidRpcUrl rpcUrl then
    (pm, some "Invalid RPC URL")
  else
    let pm1 := { pm with providers := mapSet pm.providers chainId rpcUrl }
    match privateKey with
    | none => (pm1, none)
    | some key =>
        if key = "" then
          (pm1, none)
        else if !isValidPrivateKey key then
          (pm1, some "Invalid private key")
        else
          ({ pm1 with signers := mapSet pm1.signers chainId key }, none)

/-- The strict aggregate transport: what `multicall.aggregate(calls)`
(MulticallService.ts line 84) produces, as a function of the calls array —
either a thrown error message or the decoded contract response
`(blockNumber, returnData[])`. -/
abbrev AggregateRpc := List CallDescriptor → Except String (Nat × List Bytes)

/-- The best-effort transport: what
`multicall.tryAggregate(requireSuccess, calls)` (line 128) produces —
either a thrown error message or the decoded `(bool, bytes)[]` response. -/
abbrev TryAggregateRpc := Bool → List CallDescriptor → Except String (List (Bool × Bytes))

/-- `MulticallService.getErc20BatchBalances(params, chainId = 1)` (lines
59-104). The optional `chainId` argument defaults to `1` (the TS default
parameter applies when the argument is omitted/undefined). In source
order: provider lookup (line 66, outside the try), Multicall2 address
lookup (line 68, outside the try), calls construction (lines 77-80), then
inside the try the aggregate round-trip and the decode loop; any error
thrown inside the try is re-thrown as
`Failed to get batch balances: ${error.message}`. -/
def getErc20BatchBalances (pm : ProviderManager)
    (params : Erc20BatchBalanceParams) (chainId : Option Nat)
    (rpcAggregate : AggregateRpc) :
    Except String (List (String × String)) :=
  match pm.getProvider (some (chainId.getD 1)) with
  | .error e => .error e
  | .ok _provider =>
    match getMulticallAddress (chainId.getD 1) with
    | .error e => .error e
    | .ok _multicallAddress =>
      let calls := buildBalanceCalls params.ownerAddress params.tokenAddresses
      match rpcAggregate calls with
      | .error e => .error ("Failed to get batch balances: " ++ e)
      | .ok (_blockNumber, returnData) =>
        match balancesLoop params.tokenAddresses returnData [] with
        | .ok balances => .ok balances
        | .error e => .error ("Failed to get batch balances: " ++ e)

/-- `MulticallService.batchCalls(calls, chainId = 1, requireSuccess =
false)` (lines 113-141). Same provider / Multicall2-address preamble
outside the try; inside the try the `tryAggregate` round-trip, whose
response tuples are repackaged positionally into `CallResult`s with no
length check; a thrown error is re-thrown as
`Failed to batch calls: ${error.message}`. -/
def batchCalls (pm : ProviderManager) (calls : List CallDescriptor)
    (chainId : Option Nat) (requireSuccess : Option Bool)
    (rpcTryAggregate : TryAggregateRpc) :
    Except String (List CallResult) :=
  match pm.getProvider (some (chainId.getD 1)) with
  | .error e => .error e
  | .ok _provider =>
    match getMulticallAddress (chainId.getD 1) with
    | .error e => .error e
    | .ok _multicallAddress =>
      match rpcTryAggregate (requireSuccess.getD false) calls with
      | .ok results => .ok (results.map fun result => { success := result.1, returnData := result.2 })
      | .error e => .error ("Failed to batch calls: " ++ e)

/-- Modelled from the spec: "Each CallDescriptor.target must be a
syntactically valid account identifier (20-byte hex)" — `0x` followed by
exactly 40 hexadecimal digits. Used to state C4; the source performs no
such check. -/
def specValidHexAddress (a : String) : Bool :=
  match a.toList with
  | '0' :: 'x' :: body => body.length = 40 && body.all isHexDigit
  | _ => false

/-- Case-insensitive equality of address strings ("two differently-cased
encodings of the same address"). -/
def sameAddressIgnoringCase (a b : String) : Bool :=
  a.toList.map Char.toLower = b.toList.map Char.toLower

/-! ## Concrete fixtures used by witnesses and counterexamples -/

/-- A manager as built by `new ProviderManager("https://rpc.example")`:
one provider registered for mainnet (chain id 1), no signer. -/
def pmMainnet : ProviderManager := ⟨[(1, "https://rpc.example")], [], 1⟩

/-- A manager as built by
`new ProviderManager("https://polygon-rpc.com", undefined, 137)`:
one provider registered for Polygon, none for mainnet. -/
def pmPolygon : ProviderManager := ⟨[(137, "https://polygon-rpc.com")], [], 137⟩

/-- The 32-byte ABI word encoding the small unsigned integer `n`. -/
def word (n : Nat) : Bytes := List.replicate 31 0 ++ [n]

/-- A transport whose aggregate response carries two return-data words,
`5` and `7`, whatever the request. -/
def rpcTwoWords : AggregateRpc := fun _ => .ok (100, [word 5, word 7])

/-! ## Helper lemmas -/

theorem mapGet_mapSet_self {α β : Type} [DecidableEq α]
    (m : List (α × β)) (k : α) (v : β) :
    mapGet (mapSet m k v) k = some v := by
  induction m with
  | nil => simp [mapSet, mapGet]
  | cons p t ih =>
    obtain ⟨k', v'⟩ := p
    by_cases h : k' = k <;> simp [mapSet, mapGet, h, ih]

theorem mapGet_mapSet_ne {α β : Type} [DecidableEq α]
    (m : List (α × β)) (k k' : α) (v : β) (h : k' ≠ k) :
    mapGet (mapSet m k v) k' = mapGet m k' := by
  have h' : ¬k = k' := fun he => h he.symm
  induction m with
  | nil => simp [mapSet, mapGet, h']
  | cons p t ih =>
    obtain ⟨k0, v0⟩ := p
    by_cases h0 : k0 = k
    · subst h0
      simp [mapSet, mapGet, h']
    · by_cases h1 : k0 = k'
      · subst h1
        simp [mapSet, mapGet, h0, h]
      · simp [mapSet, mapGet, h0, h1, ih]

theorem balancesLoop_not_mem (ts : List Address) (bs : List Bytes)
    (m m' : List (String × String)) (k : String)
    (h : balancesLoop ts bs m = .ok m') (hk : k ∉ ts) :
    mapGet m' k = mapGet m k := by
  induction ts generalizing bs m with
  | nil =>
    simp only [balancesLoop, Except.ok.injEq] at h
    rw [h]
  | cons t ts ih =>
    cases bs with
    | nil => simp [balancesLoop] at h
    | cons b0 bs' =>
      simp only [balancesLoop] at h
      cases hd : decodeUint256 b0 with
      | error e => rw [hd] at h; simp at h
      | ok v0 =>
        rw [hd] at h
        have hk' : k ∉ ts := fun hmem => hk (List.mem_cons_of_mem _ hmem)
        have hkt : k ≠ t := fun he => hk (he ▸ List.mem_cons_self t ts)
        rw [ih bs' _ h hk', mapGet_mapSet_ne _ _ _ _ hkt]

theorem balancesLoop_get (ts : List Address) (bs : List Bytes)
    (m m' : List (String × String)) (i : Nat) (b : Bytes) (v : Nat)
    (hnd : ts.Nodup) (h : balancesLoop ts bs m = .ok m')
    (hi : i < ts.length) (hb : bs[i]? = some b) (hv : decodeUint256 b = .ok v) :
    mapGet m' (ts.get ⟨i, hi⟩) = some (toString v) := by
  induction ts generalizing bs m i with
  | nil => simp at hi
  | cons t ts ih =>
    cases bs with
    | nil => simp at hb
    | cons b0 bs' =>
      simp only [balancesLoop] at h
      cases hd : decodeUint256 b0 with
      | error e => rw [hd] at h; simp at h
      | ok v0 =>
        rw [hd] at h
        cases i with
        | zero =>
          simp only [List.getElem?_cons_zero, Option.some.injEq] at hb
          subst hb
          rw [hv] at hd
          cases hd
          have hne : t ∉ ts := (List.nodup_cons.mp hnd).1
          have hpres := balancesLoop_not_mem ts bs' _ m' t h hne
          simp only [List.get]
          rw [hpres, mapGet_mapSet_self]
        | succ j =>
          simp only [List.getElem?_cons_succ] at hb
          have hj : j < ts.length := by simpa using hi
          have := ih bs' (mapSet m t (toString v0)) j
            (List.nodup_cons.mp hnd).2 h hj hb
          simpa [List.get] using this

theorem balancesLoop_short (ts : List Address) (bs : List Bytes)
    (m : List (String × String)) (hlen : bs.length < ts.length)
    (hdec : ∀ b ∈ bs, (decodeUint256 b).isOk = true) :
    balancesLoop ts bs m = .error "invalid BytesLike value" := by
  induction ts generalizing bs m with
  | nil => simp at hlen
  | cons t ts ih =>
    cases bs with
    | nil => simp [balancesLoop]
    | cons b0 bs' =>
      simp only [balancesLoop]
      cases hd : decodeUint256 b0 with
      | error e =>
        have := hdec b0 (List.mem_cons_self b0 bs')
        rw [hd] at this
        simp [Except.isOk, Except.toBool] at this
      | ok v0 =>
        exact ih bs' _ (by simpa using hlen)
          (fun b hbmem => hdec b (List.mem_cons_of_mem _ hbmem))

theorem balancesLoop_append (ts : List Address) (bs extra : List Bytes)
    (m : List (String × String)) (hlen : ts.length ≤ bs.length) :
    balancesLoop ts (bs ++ extra) m = balancesLoop ts bs m := by
  induction ts generalizing bs m with
  | nil => simp [balancesLoop]
  | cons t ts ih =>
    cases bs with
    | nil => simp at hlen
    | cons b0 bs' =>
      simp only [List.cons_append, balancesLoop]
      cases hd : decodeUint256 b0 with
      | error e => rfl
      | ok v0 => exact ih bs' _ (by simpa using hlen)

theorem buildBalanceCalls_targets (ownerAddress : Address)
    (tokenAddresses : List Address) :
    (buildBalanceCalls ownerAddress tokenAddresses).map CallDescriptor.target
      = tokenAddresses := by
  induction tokenAddresses with
  | nil => rfl
  | cons t ts ih => simp [buildBalanceCalls] at ih ⊢; exact ih

theorem getErc20BatchBalances_eq (pm : ProviderManager)
    (params : Erc20BatchBalanceParams) (c : Nat) (rpcAggregate : AggregateRpc)
    (p a : String)
    (hp : pm.getProvider (some c) = .ok p)
    (ha : getMulticallAddress c = .ok a) :
    getErc20BatchBalances pm params (some c) rpcAggregate =
      match rpcAggregate (buildBalanceCalls params.ownerAddress params.tokenAddresses) with
      | .error e => .error ("Failed to get batch balances: " ++ e)
      | .ok (_blockNumber, returnData) =>
        match balancesLoop params.tokenAddresses returnData [] with
        | .ok balances => .ok balances
        | .error e => .error ("Failed to get batch balances: " ++ e) := by
  unfold getErc20BatchBalances
  simp only [Option.getD_some, hp, ha]

theorem batchCalls_eq (pm : ProviderManager) (calls : List CallDescriptor)
    (c : Nat) (req : Bool) (rpcTryAggregate : TryAggregateRpc) (p a : String)
    (hp : pm.getProvider (some c) = .ok p)
    (ha : getMulticallAddress c = .ok a) :
    batchCalls pm calls (some c) (some req) rpcTryAggregate =
      match rpcTryAggregate req calls with
      | .ok results => .ok (results.map fun result => { success := result.1, returnData := result.2 })
      | .error e => .error ("Failed to batch calls: " ++ e) := by
  unfold batchCalls
  simp only [Option.getD_some, hp, ha]

/-! ## Claim theorems -/

/-- C6: for every batch, if the strict aggregate round-trip fails (the
transport throws, which covers both network failure and a strict-mode
revert inside the batching contract), `getErc20BatchBalances` raises
exactly one error whose message wraps the underlying cause
(`Failed to get batch balances: <cause>`), and no partial balance mapping
is returned (the result is the error alone, never a map). -/
theorem c6_aggregate_failure_wrapped (pm : ProviderManager)
    (params : Erc20BatchBalanceParams) (c : Nat) (p a e : String)
    (rpcAggregate : AggregateRpc)
    (hp : pm.getProvider (some c) = .ok p)
    (ha : getMulticallAddress c = .ok a)
    (hrpc : rpcAggregate (buildBalanceCalls params.ownerAddress params.tokenAddresses)
      = .error e) :
    getErc20BatchBalances pm params (some c) rpcAggregate
      = .error ("Failed to get batch balances: " ++ e) := by
  rw [getErc20BatchBalances_eq pm params c rpcAggregate p a hp ha, hrpc]

/-- C6 witness: a mainnet batch of two tokens whose transport fails with
`network down` yields exactly the wrapped error. -/
theorem c6_witness :
    getErc20BatchBalances pmMainnet ⟨"0xOwner", ["0xA", "0xB"]⟩ (some 1)
      (fun _ => .error "network down")
      = .error "Failed to get batch balances: network down" :=
  c6_aggregate_failure_wrapped pmMainnet ⟨"0xOwner", ["0xA", "0xB"]⟩ 1
    "https://rpc.example" "0x5BA1e12693Dc8F9c48aAD8770482f4739bEeD696"
    "network down" (fun _ => .error "network down") (by decide) (by decide) rfl

/-- C7: for every batch run through `batchCalls` with
`requireSuccess = false`, the operation returns normally whenever the
`tryAggregate` round-trip returns, and its result repackages the
response tuples positionally — so a per-call failure is data
(`success = false` at that position, the other positions keeping their
own flags), not a raised error. -/
theorem c7_best_effort_results (pm : ProviderManager)
    (calls : List CallDescriptor) (c : Nat) (p a : String)
    (resp : List (Bool × Bytes)) (rpcTryAggregate : TryAggregateRpc)
    (hp : pm.getProvider (some c) = .ok p)
    (ha : getMulticallAddress c = .ok a)
    (hresp : rpcTryAggregate false calls = .ok resp) :
    batchCalls pm calls (some c) (some false) rpcTryAggregate
      = .ok (resp.map fun result => { success := result.1, returnData := result.2 }) := by
  rw [batchCalls_eq pm calls c false rpcTryAggregate p a hp ha, hresp]

/-- C7 witness: a batch of 3 calls where call #2 reverts and
`requireSuccess = false` returns normally with `success = true, false,
true` at positions 1, 2, 3. -/
theorem c7_witness :
    batchCalls pmMainnet [⟨"0xA", [1]⟩, ⟨"0xB", [2]⟩, ⟨"0xC", [3]⟩]
      (some 1) (some false)
      (fun _ _ => .ok [(true, [1]), (false, []), (true, [3])])
      = .ok [⟨true, [1]⟩, ⟨false, []⟩, ⟨true, [3]⟩] :=
  c7_best_effort_results pmMainnet [⟨"0xA", [1]⟩, ⟨"0xB", [2]⟩, ⟨"0xC", [3]⟩] 1
    "https://rpc.example" "0x5BA1e12693Dc8F9c48aAD8770482f4739bEeD696"
    [(true, [1]), (false, []), (true, [3])]
    (fun _ _ => .ok [(true, [1]), (false, []), (true, [3])]) (by decide) (by decide) rfl

/-- C8: the Multicall2 address lookup succeeds for exactly the six chain
ids 1, 137, 56, 8453, 10 and 42161, returning the fixed address recorded
in the table for each (Base, Optimism and Arbitrum sharing
`0xcA11bde05977b3631167028862bE2a173976CA11`), and fails for every other
chain id. -/
theorem c8_multicall_address_table :
    getMulticallAddress 1 = .ok "0x5BA1e12693Dc8F9c48aAD8770482f4739bEeD696"
    ∧ getMulticallAddress 137 = .ok "0x275617327c958bD06b5D6b871E7f491D76113dd8"
    ∧ getMulticallAddress 56 = .ok "0xa9193376D09C7f31283C54e56D013fCF370Cd9D9"
    ∧ getMulticallAddress 8453 = .ok "0xcA11bde05977b3631167028862bE2a173976CA11"
    ∧ getMulticallAddress 10 = .ok "0xcA11bde05977b3631167028862bE2a173976CA11"
    ∧ getMulticallAddress 42161 = .ok "0xcA11bde05977b3631167028862bE2a173976CA11"
    ∧ ∀ chainId : Nat, (getMulticallAddress chainId).isOk
        = ([1, 137, 56, 8453, 10, 42161] : List Nat).contains chainId := by
  refine ⟨by decide, by decide, by decide, by decide, by decide, by decide, ?_⟩
  intro c
  unfold getMulticallAddress MULTICALL2_ADDRESSES
  split_ifs with h1 h2 h3 h4 h5 h6 <;>
    simp_all [List.contains, Except.isOk, Except.toBool]

/-- C10: the chain-id parameter of `getErc20BatchBalances` and
`batchCalls` defaults to mainnet (1), not to the manager's configured
default chain: for every `ProviderManager` whose default chain is not 1,
which holds a provider for that default chain but none for chain 1, the
chain-id-omitted call fails with `Provider not found for chain ID 1`
even though a default provider exists. -/
theorem c10_default_chain_is_mainnet (pm : ProviderManager)
    (params : Erc20BatchBalanceParams) (calls : List CallDescriptor)
    (req : Option Bool) (p : String)
    (rpcAggregate : AggregateRpc) (rpcTryAggregate : TryAggregateRpc)
    (hne : pm.defaultChainId ≠ 1)
    (h1 : mapGet pm.providers 1 = none)
    (hdef : mapGet pm.providers pm.defaultChainId = some p) :
    getErc20BatchBalances pm params none rpcAggregate
      = .error "Provider not found for chain ID 1"
    ∧ batchCalls pm calls none req rpcTryAggregate
      = .error "Provider not found for chain ID 1" := by
  have hprov : pm.getProvider (some 1) = .error "Provider not found for chain ID 1" := by
    unfold ProviderManager.getProvider
    simp [h1]
    decide
  constructor
  · unfold getErc20BatchBalances
    simp [hprov]
  · unfold batchCalls
    simp [hprov]

/-- C10 witness: a manager configured for Polygon (default chain 137,
provider registered there only) fails both chain-id-omitted operations
with `Provider not found for chain ID 1`. -/
theorem c10_witness :
    getErc20BatchBalances pmPolygon ⟨"0xOwner", ["0xT"]⟩ none rpcTwoWords
      = .error "Provider not found for chain ID 1"
    ∧ batchCalls pmPolygon [] none none (fun _ _ => .ok [])
      = .error "Provider not found for chain ID 1" :=
  c10_default_chain_is_mainnet pmPolygon ⟨"0xOwner", ["0xT"]⟩ [] none
    "https://polygon-rpc.com" rpcTwoWords (fun _ _ => .ok [])
    (by decide) (by decide) (by decide)

/-- C5 counterexample: chain id 2 is absent from the address table, yet
calling `getErc20BatchBalances` with it on a mainnet-only manager fails
with `Provider not found for chain ID 2` — the provider lookup runs
first, so the claimed "unsupported chain" error
(`Multicall2 address not found for chain ID 2`) is not the one raised. -/
theorem c5_counterexample :
    MULTICALL2_ADDRESSES 2 = none
    ∧ getErc20BatchBalances pmMainnet ⟨"0xOwner", ["0xT"]⟩ (some 2) rpcTwoWords
      = .error "Provider not found for chain ID 2"
    ∧ "Provider not found for chain ID 2"
      ≠ "Multicall2 address not found for chain ID 2" := by
  refine ⟨rfl, by decide, by decide⟩

/-- C5 amended: for every chain id absent from the Multicall2 address
table *for which a provider is registered*, `getErc20BatchBalances` and
`batchCalls` fail with the verbatim, unwrapped error
`Multicall2 address not found for chain ID <id>` whatever the transport
would answer — i.e. before any RPC call; if no provider is registered for
that chain id, the call instead fails even earlier with the provider
lookup error. -/
theorem c5_unsupported_chain (pm : ProviderManager)
    (params : Erc20BatchBalanceParams) (calls : List CallDescriptor)
    (c c' : Nat) (req : Option Bool) (p : String)
    (rpcAggregate : AggregateRpc) (rpcTryAggregate : TryAggregateRpc)
    (habs : MULTICALL2_ADDRESSES c = none)
    (hp : pm.getProvider (some c) = .ok p)
    (habs' : MULTICALL2_ADDRESSES c' = none)
    (hc' : c' ≠ 0)
    (h1 : mapGet pm.providers c' = none) :
    getErc20BatchBalances pm params (some c) rpcAggregate
      = .error ("Multicall2 address not found for chain ID " ++ toString c)
    ∧ batchCalls pm calls (some c) req rpcTryAggregate
      = .error ("Multicall2 address not found for chain ID " ++ toString c)
    ∧ getErc20BatchBalances pm params (some c') rpcAggregate
      = .error ("Provider not found for chain ID " ++ toString c')
    ∧ batchCalls pm calls (some c') req rpcTryAggregate
      = .error ("Provider not found for chain ID " ++ toString c') := by
  have ha : getMulticallAddress c
      = .error ("Multicall2 address not found for chain ID " ++ toString c) := by
    unfold getMulticallAddress
    rw [habs]
  have hprov' : pm.getProvider (some c')
      = .error ("Provider not found for chain ID " ++ toString c') := by
    unfold ProviderManager.getProvider
    simp [hc', h1]
  refine ⟨?_, ?_, ?_, ?_⟩
  · unfold getErc20BatchBalances
    simp [hp, ha]
  · unfold batchCalls
    simp [hp, ha]
  · unfold getErc20BatchBalances
    simp [hprov']
  · unfold batchCalls
    simp [hprov']

/-- C5 witness: a manager holding a provider for the unsupported chain id
250 (and none for the unsupported chain id 2) fails both operations with
the verbatim table-lookup error at chain 250, and with the earlier
provider-lookup error at chain 2, for a transport that would have
answered successfully. -/
theorem c5_witness :
    getErc20BatchBalances ⟨[(250, "https://fantom.example")], [], 250⟩
      ⟨"0xOwner", ["0xT"]⟩ (some 250) rpcTwoWords
      = .error "Multicall2 address not found for chain ID 250"
    ∧ batchCalls ⟨[(250, "https://fantom.example")], [], 250⟩
      [⟨"0xT", [1]⟩] (some 250) (some false) (fun _ _ => .ok [(true, [])])
      = .error "Multicall2 address not found for chain ID 250"
    ∧ getErc20BatchBalances ⟨[(250, "https://fantom.example")], [], 250⟩
      ⟨"0xOwner", ["0xT"]⟩ (some 2) rpcTwoWords
      = .error "Provider not found for chain ID 2"
    ∧ batchCalls ⟨[(250, "https://fantom.example")], [], 250⟩
      [⟨"0xT", [1]⟩] (some 2) (some false) (fun _ _ => .ok [(true, [])])
      = .error "Provider not found for chain ID 2" :=
  c5_unsupported_chain ⟨[(250, "https://fantom.example")], [], 250⟩
    ⟨"0xOwner", ["0xT"]⟩ [⟨"0xT", [1]⟩] 250 2 (some false)
    "https://fantom.example" rpcTwoWords (fun _ _ => .ok [(true, [])])
    rfl (by decide) rfl (by decide) (by decide)

/-- C9 counterexample: `addProvider` on a mainnet-only manager with a
valid URL, chain id 5 and the syntactically invalid private key
`not-a-key` throws `Invalid private key`, yet the provider map is *not*
unchanged: it now holds an entry for chain id 5. -/
theorem c9_counterexample :
    (pmMainnet.addProvider "https://example.com" 5 (some "not-a-key")).2
      = some "Invalid private key"
    ∧ (pmMainnet.addProvider "https://example.com" 5 (some "not-a-key")).1.providers
      ≠ pmMainnet.providers
    ∧ mapGet (pmMainnet.addProvider "https://example.com" 5 (some "not-a-key")).1.providers 5
      = some "https://example.com" := by
  refine ⟨by decide, by decide, by decide⟩

/-- C9 amended: for every manager state, valid RPC URL, chain id and
syntactically invalid private key other than the empty string (the
empty string is falsy in JS, so the source skips key handling entirely
and returns normally), `addProvider` fails with `Invalid private key`
and stores no signer (the signer map is unchanged), but the provider
entry for that chain id *is* stored before the key is validated, so the
provider map is updated even though the call fails. -/
theorem c9_add_provider_invalid_key (pm : ProviderManager) (rpcUrl : String)
    (chainId : Nat) (key : String)
    (hurl : isValidRpcUrl rpcUrl = true)
    (hne : key ≠ "")
    (hkey : isValidPrivateKey key = false) :
    pm.addProvider rpcUrl chainId (some key)
      = ({ providers := mapSet pm.providers chainId rpcUrl,
           signers := pm.signers,
           defaultChainId := pm.defaultChainId },
         some "Invalid private key") := by
  unfold ProviderManager.addProvider
  simp [hurl, hne, hkey]

/-- C9 witness: concrete run of the amended statement — the failed call
reports `Invalid private key`, leaves the signer map empty, and has
stored the chain-5 provider entry. -/
theorem c9_witness :
    pmMainnet.addProvider "https://example.com" 5 (some "not-a-key")
      = (⟨[(1, "https://rpc.example"), (5, "https://example.com")], [], 1⟩,
         some "Invalid private key") :=
  c9_add_provider_invalid_key pmMainnet "https://example.com" 5 "not-a-key"
    (by decide) (by decide) (by decide)

/-- C2 counterexample: requesting the USDT address twice, once
checksum-cased and once lower-cased, yields a two-element call batch but
a *two*-entry result mapping, not the claimed single entry — the JS `Map`
keys the two casings separately. -/
theorem c2_counterexample :
    sameAddressIgnoringCase "0xDAC17F958D2EE523A2206206994597C13D831EC7"
      "0xdac17f958d2ee523a2206206994597c13d831ec7" = true
    ∧ "0xDAC17F958D2EE523A2206206994597C13D831EC7"
      ≠ "0xdac17f958d2ee523a2206206994597c13d831ec7"
    ∧ (buildBalanceCalls "0xOwner"
        ["0xDAC17F958D2EE523A2206206994597C13D831EC7",
         "0xdac17f958d2ee523a2206206994597c13d831ec7"]).length = 2
    ∧ getErc20BatchBalances pmMainnet
        ⟨"0xOwner",
         ["0xDAC17F958D2EE523A2206206994597C13D831EC7",
          "0xdac17f958d2ee523a2206206994597c13d831ec7"]⟩ (some 1) rpcTwoWords
      = .ok [("0xDAC17F958D2EE523A2206206994597C13D831EC7", "5"),
             ("0xdac17f958d2ee523a2206206994597c13d831ec7", "7")]
    ∧ ([("0xDAC17F958D2EE523A2206206994597C13D831EC7", "5"),
        ("0xdac17f958d2ee523a2206206994597c13d831ec7", "7")]
        : List (String × String)).length ≠ 1 := by
  refine ⟨by decide, by decide, by decide, by decide, by decide⟩

/-- C2 amended: for every input naming the same token address twice with
different letter casings (equal ignoring case, unequal as strings), the
internal call batch has two elements and the returned mapping *also* has
two entries, one per casing, each carrying its own decoded balance — the
`Map` keys address strings case-sensitively, so only string-identical
duplicates overwrite. -/
theorem c2_case_sensitive_two_entries (pm : ProviderManager)
    (owner a b : Address) (c bn : Nat) (p addr : String)
    (b1 b2 : Bytes) (v1 v2 : Nat) (rpcAggregate : AggregateRpc)
    (hp : pm.getProvider (some c) = .ok p)
    (ha : getMulticallAddress c = .ok addr)
    (hcase : sameAddressIgnoringCase a b = true)
    (hne : a ≠ b)
    (hrpc : rpcAggregate (buildBalanceCalls owner [a, b]) = .ok (bn, [b1, b2]))
    (h1 : decodeUint256 b1 = .ok v1)
    (h2 : decodeUint256 b2 = .ok v2) :
    (buildBalanceCalls owner [a, b]).length = 2
    ∧ getErc20BatchBalances pm ⟨owner, [a, b]⟩ (some c) rpcAggregate
      = .ok [(a, toString v1), (b, toString v2)]
    ∧ ([(a, toString v1), (b, toString v2)] : List (String × String)).length = 2 := by
  refine ⟨rfl, ?_, rfl⟩
  rw [getErc20BatchBalances_eq pm ⟨owner, [a, b]⟩ c rpcAggregate p addr hp ha, hrpc]
  simp only [balancesLoop, h1, h2, mapSet, hne, if_false]

/-- C2 witness: the two USDT casings with decoded balances 5 and 7 give a
two-element batch and the two-entry mapping. -/
theorem c2_witness :
    (buildBalanceCalls "0xOwner"
      ["0xDAC17F958D2EE523A2206206994597C13D831EC7",
       "0xdac17f958d2ee523a2206206994597c13d831ec7"]).length = 2
    ∧ getErc20BatchBalances pmMainnet
        ⟨"0xOwner",
         ["0xDAC17F958D2EE523A2206206994597C13D831EC7",
          "0xdac17f958d2ee523a2206206994597c13d831ec7"]⟩ (some 1) rpcTwoWords
      = .ok [("0xDAC17F958D2EE523A2206206994597C13D831EC7", toString 5),
             ("0xdac17f958d2ee523a2206206994597c13d831ec7", toString 7)]
    ∧ ([("0xDAC17F958D2EE523A2206206994597C13D831EC7", toString 5),
        ("0xdac17f958d2ee523a2206206994597c13d831ec7", toString 7)]
        : List (String × String)).length = 2 :=
  c2_case_sensitive_two_entries pmMainnet "0xOwner"
    "0xDAC17F958D2EE523A2206206994597C13D831EC7"
    "0xdac17f958d2ee523a2206206994597c13d831ec7" 1 100
    "https://rpc.example" "0x5BA1e12693Dc8F9c48aAD8770482f4739bEeD696"
    (word 5) (word 7) 5 7 rpcTwoWords
    (by decide) (by decide) (by decide) (by decide) rfl (by decide) (by decide)

/-- C4 counterexample: the string `not-an-address` is not a syntactically
valid 20-byte hex account identifier, yet `getErc20BatchBalances` puts it
verbatim into the call batch, hands the batch to the transport, and
returns a successful mapping built from the transport's response — the
response value even varies with the transport, so the round-trip did
happen; nothing was rejected beforehand. -/
theorem c4_counterexample :
    specValidHexAddress "not-an-address" = false
    ∧ (buildBalanceCalls "0xOwner" ["not-an-address"]).map CallDescriptor.target
      = ["not-an-address"]
    ∧ getErc20BatchBalances pmMainnet ⟨"0xOwner", ["not-an-address"]⟩ (some 1) rpcTwoWords
      = .ok [("not-an-address", "5")]
    ∧ getErc20BatchBalances pmMainnet ⟨"0xOwner", ["not-an-address"]⟩ (some 1)
        (fun _ => .ok (0, [word 9]))
      = .ok [("not-an-address", "9")] := by
  refine ⟨by decide, by decide, by decide, by decide⟩

/-- C4 amended: neither `getErc20BatchBalances` nor `batchCalls`
performs any syntactic validation of target addresses: the batch each
hands to the transport lists every target verbatim (valid or not), and
when the transport answers (and, for balances, the entries decode), the
operation succeeds — the invalid address appearing as a key of the
returned mapping, and the repackaged response being returned in full;
any rejection of invalid addresses happens only inside the external
client library during the round-trip, not in this code before it. -/
theorem c4_no_target_validation (pm : ProviderManager) (owner t : Address)
    (tokens : List Address) (c bn : Nat) (p a : String) (rd : List Bytes)
    (m : List (String × String)) (rpcAggregate : AggregateRpc)
    (calls : List CallDescriptor) (t2 : Address) (req : Bool)
    (resp : List (Bool × Bytes)) (rpcTryAggregate : TryAggregateRpc)
    (hp : pm.getProvider (some c) = .ok p)
    (ha : getMulticallAddress c = .ok a)
    (ht : t ∈ tokens)
    (hinv : specValidHexAddress t = false)
    (hrpc : rpcAggregate (buildBalanceCalls owner tokens) = .ok (bn, rd))
    (hloop : balancesLoop tokens rd [] = .ok m)
    (ht2 : t2 ∈ calls.map CallDescriptor.target)
    (hinv2 : specValidHexAddress t2 = false)
    (hresp : rpcTryAggregate req calls = .ok resp) :
    (buildBalanceCalls owner tokens).map CallDescriptor.target = tokens
    ∧ getErc20BatchBalances pm ⟨owner, tokens⟩ (some c) rpcAggregate = .ok m
    ∧ batchCalls pm calls (some c) (some req) rpcTryAggregate
      = .ok (resp.map fun result => { success := result.1, returnData := result.2 }) := by
  refine ⟨buildBalanceCalls_targets owner tokens, ?_, ?_⟩
  · rw [getErc20BatchBalances_eq pm ⟨owner, tokens⟩ c rpcAggregate p a hp ha, hrpc]
    simp only [hloop]
  · rw [batchCalls_eq pm calls c req rpcTryAggregate p a hp ha, hresp]

/-- C4 witness: concrete runs of the amended statement on the invalid
target `not-an-address` through both operations. -/
theorem c4_witness :
    (buildBalanceCalls "0xOwner" ["not-an-address"]).map CallDescriptor.target
      = ["not-an-address"]
    ∧ getErc20BatchBalances pmMainnet ⟨"0xOwner", ["not-an-address"]⟩ (some 1)
        (fun _ => .ok (0, [word 5]))
      = .ok [("not-an-address", toString 5)]
    ∧ batchCalls pmMainnet [⟨"not-an-address", [1]⟩] (some 1) (some false)
        (fun _ _ => .ok [(true, [2])])
      = .ok ([(true, [2])].map
          fun result => { success := result.1, returnData := result.2 }) :=
  c4_no_target_validation pmMainnet "0xOwner" "not-an-address"
    ["not-an-address"] 1 0 "https://rpc.example"
    "0x5BA1e12693Dc8F9c48aAD8770482f4739bEeD696" [word 5]
    [("not-an-address", toString 5)] (fun _ => .ok (0, [word 5]))
    [⟨"not-an-address", [1]⟩] "not-an-address" false [(true, [2])]
    (fun _ _ => .ok [(true, [2])])
    (by decide) (by decide) (by decide) (by decide) rfl (by decide)
    (by decide) (by decide) rfl

/-- C3 counterexample: the contract response carries one tuple for a
two-call batch, yet `batchCalls` returns normally with a truncated
one-element result sequence — no decode error is raised on the length
mismatch. -/
theorem c3_counterexample :
    ([(⟨"0xA", [1]⟩ : CallDescriptor), ⟨"0xB", [2]⟩] : List CallDescriptor).length = 2
    ∧ batchCalls pmMainnet [⟨"0xA", [1]⟩, ⟨"0xB", [2]⟩] (some 1) (some false)
        (fun _ _ => .ok [(true, [7])])
      = .ok [⟨true, [7]⟩]
    ∧ ([(⟨true, [7]⟩ : CallResult)] : List CallResult).length = 1 := by
  refine ⟨rfl, by decide, rfl⟩

/-- C3 amended: on a response/request length mismatch the code does not
uniformly fail with a decode error. `getErc20BatchBalances` does fail
(with the wrapped decode error for the missing entry) when the response
is shorter than the request, but it silently ignores extra entries when
the response is longer (same result as with the exact-length response);
and `batchCalls` performs no length check at all, returning exactly as
many results as the response has tuples, shorter or longer than the
request. -/
theorem c3_length_mismatch_behavior (pm : ProviderManager)
    (owner : Address) (tokens : List Address) (calls : List CallDescriptor)
    (c bn bn' : Nat) (p a : String) (rd extra : List Bytes) (req : Bool)
    (resp : List (Bool × Bytes))
    (rpcShort rpcLong : AggregateRpc) (rpcTryAggregate : TryAggregateRpc)
    (hp : pm.getProvider (some c) = .ok p)
    (ha : getMulticallAddress c = .ok a) :
    (rpcShort (buildBalanceCalls owner tokens) = .ok (bn, rd) →
      rd.length < tokens.length →
      (∀ b ∈ rd, (decodeUint256 b).isOk = true) →
      getErc20BatchBalances pm ⟨owner, tokens⟩ (some c) rpcShort
        = .error ("Failed to get batch balances: " ++ "invalid BytesLike value"))
    ∧ (rpcShort (buildBalanceCalls owner tokens) = .ok (bn, rd) →
      rpcLong (buildBalanceCalls owner tokens) = .ok (bn', rd ++ extra) →
      rd.length = tokens.length →
      getErc20BatchBalances pm ⟨owner, tokens⟩ (some c) rpcLong
        = getErc20BatchBalances pm ⟨owner, tokens⟩ (some c) rpcShort)
    ∧ (rpcTryAggregate req calls = .ok resp →
      batchCalls pm calls (some c) (some req) rpcTryAggregate
        = .ok (resp.map fun result => { success := result.1, returnData := result.2 })) := by
  refine ⟨?_, ?_, ?_⟩
  · intro hrpc hlen hdec
    rw [getErc20BatchBalances_eq pm ⟨owner, tokens⟩ c rpcShort p a hp ha, hrpc]
    simp only [balancesLoop_short tokens rd [] hlen hdec]
  · intro hrpcS hrpcL hlen
    rw [getErc20BatchBalances_eq pm ⟨owner, tokens⟩ c rpcLong p a hp ha, hrpcL]
    rw [getErc20BatchBalances_eq pm ⟨owner, tokens⟩ c rpcShort p a hp ha, hrpcS]
    simp only [balancesLoop_append tokens rd extra [] (le_of_eq hlen.symm)]
  · intro hresp
    rw [batchCalls_eq pm calls c req rpcTryAggregate p a hp ha, hresp]

/-- C3 witness: the three behaviors at concrete inputs — a one-word
response for two tokens fails with the wrapped decode error; a two-word
response for one token succeeds identically to the one-word response
(extra entry ignored); a two-tuple `tryAggregate` response for a
one-call batch is returned in full. -/
theorem c3_witness :
    getErc20BatchBalances pmMainnet ⟨"0xOwner", ["0xA", "0xB"]⟩ (some 1)
      (fun _ => .ok (0, [word 5]))
      = .error ("Failed to get batch balances: " ++ "invalid BytesLike value")
    ∧ getErc20BatchBalances pmMainnet ⟨"0xOwner", ["0xA"]⟩ (some 1)
        (fun _ => .ok (0, [word 5] ++ [word 9]))
      = getErc20BatchBalances pmMainnet ⟨"0xOwner", ["0xA"]⟩ (some 1)
        (fun _ => .ok (0, [word 5]))
    ∧ batchCalls pmMainnet [⟨"0xA", [1]⟩] (some 1) (some false)
        (fun _ _ => .ok [(true, [1]), (false, [2])])
      = .ok ([(true, [1]), (false, [2])].map
          fun result => { success := result.1, returnData := result.2 }) :=
  ⟨(c3_length_mismatch_behavior pmMainnet "0xOwner" ["0xA", "0xB"]
      [⟨"0xA", [1]⟩] 1 0 0 "https://rpc.example"
      "0x5BA1e12693Dc8F9c48aAD8770482f4739bEeD696" [word 5] [] false []
      (fun _ => .ok (0, [word 5])) (fun _ => .ok (0, [word 5]))
      (fun _ _ => .ok []) (by decide) (by decide)).1
      rfl (by decide) (by decide),
   (c3_length_mismatch_behavior pmMainnet "0xOwner" ["0xA"]
      [⟨"0xA", [1]⟩] 1 0 0 "https://rpc.example"
      "0x5BA1e12693Dc8F9c48aAD8770482f4739bEeD696" [word 5] [word 9] false []
      (fun _ => .ok (0, [word 5])) (fun _ => .ok (0, [word 5] ++ [word 9]))
      (fun _ _ => .ok []) (by decide) (by decide)).2.1
      rfl rfl (by decide),
   (c3_length_mismatch_behavior pmMainnet "0xOwner" ["0xA"]
      [⟨"0xA", [1]⟩] 1 0 0 "https://rpc.example"
      "0x5BA1e12693Dc8F9c48aAD8770482f4739bEeD696" [] [] false
      [(true, [1]), (false, [2])]
      (fun _ => .ok (0, [])) (fun _ => .ok (0, []))
      (fun _ _ => .ok [(true, [1]), (false, [2])]) (by decide) (by decide)).2.2
      rfl⟩

/-- C1 counterexample: with the same token address at input positions 0
and 1 and a two-entry response decoding to 5 and 7, the returned mapping
holds `7` for that address — the index-0 binding (`5`) was overwritten,
so the mapping does not map the 0-th input token address to the decode of
the 0-th returnData entry. -/
theorem c1_counterexample :
    getErc20BatchBalances pmMainnet ⟨"0xOwner", ["0xToken", "0xToken"]⟩ (some 1) rpcTwoWords
      = .ok [("0xToken", "7")]
    ∧ decodeUint256 (word 5) = .ok 5
    ∧ mapGet [("0xToken", "7")] "0xToken" ≠ some (toString 5) := by
  refine ⟨by decide, by decide, by decide⟩

/-- C1 amended: whenever the token addresses are pairwise distinct (as
strings; string-identical duplicates keep the last entry's value instead)
and the call succeeds, the returned mapping maps the i-th input token
address to the base-10 string of the uint256 decoded from the i-th
returnData entry; and `batchCalls` returns its results in the same order
as the contract response, the i-th `CallResult` being the
`{success, returnData}` repackaging of the i-th response tuple. -/
theorem c1_order_preservation (pm : ProviderManager) (owner : Address)
    (tokens : List Address) (calls : List CallDescriptor) (c bn : Nat)
    (p a : String) (rd : List Bytes) (m : List (String × String))
    (resp : List (Bool × Bytes)) (req : Bool)
    (rpcAggregate : AggregateRpc) (rpcTryAggregate : TryAggregateRpc)
    (hp : pm.getProvider (some c) = .ok p)
    (ha : getMulticallAddress c = .ok a)
    (hnd : tokens.Nodup)
    (hrpc : rpcAggregate (buildBalanceCalls owner tokens) = .ok (bn, rd))
    (hok : getErc20BatchBalances pm ⟨owner, tokens⟩ (some c) rpcAggregate = .ok m)
    (hresp : rpcTryAggregate req calls = .ok resp) :
    (∀ i (hi : i < tokens.length) (b : Bytes) (v : Nat),
      rd[i]? = some b → decodeUint256 b = .ok v →
      mapGet m (tokens.get ⟨i, hi⟩) = some (toString v))
    ∧ batchCalls pm calls (some c) (some req) rpcTryAggregate
      = .ok (resp.map fun result => { success := result.1, returnData := result.2 }) := by
  constructor
  · rw [getErc20BatchBalances_eq pm ⟨owner, tokens⟩ c rpcAggregate p a hp ha, hrpc] at hok
    intro i hi b v hb hv
    cases hl : balancesLoop tokens rd [] with
    | error e => simp only [hl] at hok; exact (Except.noConfusion hok)
    | ok m' =>
      simp only [hl, Except.ok.injEq] at hok
      subst hok
      exact balancesLoop_get tokens rd [] m' i b v hnd hl hi hb hv
  · rw [batchCalls_eq pm calls c req rpcTryAggregate p a hp ha, hresp]

/-- C1 witness: two distinct tokens with decoded balances 5 and 7 — the
mapping holds the index-1 token's value at the index-1 decode, and a
three-call `batchCalls` run preserves the response order. -/
theorem c1_witness :
    mapGet [("0xA", "5"), ("0xB", "7")] (["0xA", "0xB"].get ⟨1, by decide⟩)
      = some (toString 7)
    ∧ batchCalls pmMainnet [⟨"0xA", [1]⟩, ⟨"0xB", [2]⟩] (some 1) (some false)
        (fun _ _ => .ok [(true, [1]), (false, [2])])
      = .ok ([(true, [1]), (false, [2])].map
          fun result => { success := result.1, returnData := result.2 }) :=
  have h := c1_order_preservation pmMainnet "0xOwner" ["0xA", "0xB"]
    [⟨"0xA", [1]⟩, ⟨"0xB", [2]⟩] 1 100 "https://rpc.example"
    "0x5BA1e12693Dc8F9c48aAD8770482f4739bEeD696" [word 5, word 7]
    [("0xA", "5"), ("0xB", "7")] [(true, [1]), (false, [2])] false
    rpcTwoWords (fun _ _ => .ok [(true, [1]), (false, [2])])
    (by decide) (by decide) (by decide) rfl (by decide) rfl
  ⟨h.1 1 (by decide) (word 7) 7 (by decide) (by decide), h.2⟩
